import Mathlib

/-!
Verification development for the better-kit resource-persistence engine:
the Schema-to-DDL adapter, the admin permission utilities, the hook
pipeline executor, the ownership/scope evaluator, the resource request
pipeline, and the admin bulk-operation endpoint, shallowly embedded in
Lean 4.
-/

set_option maxHeartbeats 1000000
set_option maxRecDepth 4000

namespace BetterKit

/-! ## Schema-to-DDL adapter -/

/-- SQL dialects covered by the adapter. -/
inductive Dialect where
  | sqlite
  | mysql
  | postgres
deriving DecidableEq, Repr

/-- Primitive field types of the Field Attribute Descriptor. -/
inductive PrimitiveType where
  | string
  | number
  | boolean
  | date
  | json
deriving DecidableEq, Repr

/-- A foreign-key reference to a target resource and field. -/
structure FKReference where
  model : String
  field : String
deriving DecidableEq, Repr

/-- Field attribute descriptor: primitive type, requiredness, optional
rendered default value, optional foreign-key reference. -/
structure FieldAttribute where
  type : PrimitiveType
  required : Bool := true
  defaultValue : Option String := none
  references : Option FKReference := none
deriving DecidableEq, Repr

/-- Modelled from the spec: the per-dialect reserved-word set used by
`generateCreateTableSQL` (the adapter implementation under
`src/adapters/kysely` is absent from the snapshot; only its test suite in
CLIENT-FEATURES.md is present). The SQLite list follows the SQLite keyword
list; it contains `order` and `group` and does not contain `email`,
`name`, `product`, `id`. -/
def reservedWords : Dialect → List String
  | .sqlite =>
    ["abort", "action", "add", "after", "all", "alter", "and", "as",
     "asc", "attach", "autoincrement", "before", "begin", "between",
     "by", "cascade", "case", "check", "collate", "column", "commit",
     "conflict", "constraint", "create", "cross", "database", "default",
     "deferrable", "deferred", "delete", "desc", "detach", "distinct",
     "drop", "each", "else", "end", "escape", "except", "exclusive",
     "exists", "explain", "fail", "for", "foreign", "from", "full",
     "glob", "group", "having", "if", "ignore", "immediate", "in",
     "index", "indexed", "initially", "inner", "insert", "instead",
     "intersect", "into", "is", "isnull", "join", "key", "left", "like",
     "limit", "match", "natural", "no", "not", "notnull", "null", "of",
     "offset", "on", "or", "order", "outer", "plan", "pragma", "primary",
     "query", "raise", "recursive", "references", "regexp", "reindex",
     "release", "rename", "replace", "restrict", "right", "rollback",
     "row", "savepoint", "select", "set", "table", "temp", "temporary",
     "then", "to", "transaction", "trigger", "union", "unique", "update",
     "using", "vacuum", "values", "view", "virtual", "when", "where",
     "with", "without"]
  | .mysql =>
    ["add", "all", "alter", "and", "as", "asc", "between", "by", "case",
     "check", "column", "create", "cross", "database", "default",
     "delete", "desc", "distinct", "drop", "else", "exists", "foreign",
     "from", "group", "having", "if", "in", "index", "inner", "insert",
     "into", "is", "join", "key", "left", "like", "limit", "match",
     "not", "null", "on", "or", "order", "outer", "primary",
     "references", "replace", "right", "select", "set", "table", "then",
     "to", "union", "unique", "update", "using", "values", "when",
     "where"]
  | .postgres =>
    ["all", "analyse", "analyze", "and", "any", "array", "as", "asc",
     "asymmetric", "authorization", "between", "both", "case", "cast",
     "check", "collate", "column", "constraint", "create", "cross",
     "current_date", "current_role", "current_time", "current_timestamp",
     "current_user", "default", "deferrable", "desc", "distinct", "do",
     "else", "end", "except", "exists", "false", "for", "foreign",
     "from", "grant", "group", "having", "in", "initially", "inner",
     "intersect", "into", "is", "join", "leading", "left", "like",
     "limit", "localtime", "localtimestamp", "natural", "not", "null",
     "offset", "on", "only", "or", "order", "outer", "overlaps",
     "placing", "primary", "references", "right", "select",
     "session_user", "similar", "some", "symmetric", "table", "then",
     "to", "trailing", "true", "union", "unique", "user", "using",
     "when", "where", "with"]

/-- Modelled from the spec: quote an identifier with the dialect's quoting
character (double quotes for the covered dialects) exactly when it is in
the dialect's reserved-word set; emit it unquoted otherwise. -/
def quoteIdent (d : Dialect) (s : String) : String :=
  if s ∈ reservedWords d then "\"" ++ s ++ "\"" else s

/-- Modelled from the spec: per-dialect rendering of each primitive type
(string→TEXT, number→REAL/DOUBLE, boolean→INTEGER/BOOLEAN,
date→TEXT/TIMESTAMP, json→TEXT). -/
def sqlType (d : Dialect) : PrimitiveType → String
  | .string => "TEXT"
  | .number =>
    match d with
    | .sqlite => "REAL"
    | .mysql => "DOUBLE"
    | .postgres => "DOUBLE PRECISION"
  | .boolean =>
    match d with
    | .sqlite => "INTEGER"
    | .mysql => "BOOLEAN"
    | .postgres => "BOOLEAN"
  | .date =>
    match d with
    | .sqlite => "TEXT"
    | .mysql => "TIMESTAMP"
    | .postgres => "TIMESTAMP"
  | .json => "TEXT"

/-- Modelled from the spec: render one column definition. The identifier
is checked against the reserved-word set on its own; the implicit `id`
column is the primary key; a declared default is appended. -/
def columnDef (d : Dialect) (name : String) (f : FieldAttribute) : String :=
  quoteIdent d name ++ (" " ++ sqlType d f.type ++
    (if name = "id" then " PRIMARY KEY" else "") ++
    (match f.defaultValue with
     | some v => " DEFAULT " ++ v
     | none => ""))

/-- Modelled from the spec: render one foreign-key clause. The target
table and target column go through the same reserved-word check; the
clause does not depend on the referencing table's name at all. -/
def fkClause (d : Dialect) (name : String) (r : FKReference) : String :=
  ("FOREIGN KEY (" ++ quoteIdent d name ++ ") ") ++
    ("REFERENCES " ++ (quoteIdent d r.model ++
      ("(" ++ (quoteIdent d r.field ++ ")"))))

/-- The foreign-key clauses of a field list, in field order. -/
def fkClauses (d : Dialect) (fields : List (String × FieldAttribute)) :
    List String :=
  fields.filterMap fun p =>
    match p.2.references with
    | some r => some (fkClause d p.1 r)
    | none => none

/-- Modelled from the spec: `generateCreateTableSQL(resourceName, fields,
dialect) → DDL text` — a pure function emitting
`CREATE TABLE IF NOT EXISTS`, the quoted-iff-reserved table name, the
column definitions in declaration order, then the foreign-key clauses. -/
def generateCreateTableSQL (resourceName : String)
    (fields : List (String × FieldAttribute)) (d : Dialect) : String :=
  "CREATE TABLE IF NOT EXISTS " ++
    (quoteIdent d resourceName ++ " (" ++
      String.intercalate ", "
        (fields.map (fun p => columnDef d p.1 p.2) ++ fkClauses d fields) ++
      ")")

/-- The string `needle` occurs contiguously inside `hay`. -/
def occursIn (needle hay : String) : Prop :=
  needle.data <:+: hay.data

instance (needle hay : String) : Decidable (occursIn needle hay) :=
  inferInstanceAs (Decidable (needle.data <:+: hay.data))

/-! ## Admin permission utilities
(`src/packages/better-query/src/plugins/admin/utils/permissions.ts`) -/

/-- The user of a `PermissionContext`: id, role, optional permission
token list (`permissions?: string[]`). -/
structure AdminUser where
  id : String
  role : String
  permissions : Option (List String) := none
deriving DecidableEq, Repr

/-- Structure `PermissionContext` from permissions.ts: user, resource, action.
The `record` member is unused by `validateAdminPermissions` and omitted. -/
structure PermissionContext where
  user : AdminUser
  resource : String
  action : String
deriving DecidableEq, Repr

/-- Evaluation of `user.permissions?.includes(tok)` with optional chaining: an absent
list is falsy. -/
def permIncludes (u : AdminUser) (tok : String) : Bool :=
  match u.permissions with
  | some ps => ps.contains tok
  | none => false

/-- Function `validateAdminPermissions` from permissions.ts: super-admin role or a
`*` token grants everything; any role other than `admin` is then refused;
an admin with a permission list needs the exact `resource:action` token or
the `resource:*` wildcard; an admin without a list can do everything. -/
def validateAdminPermissions (ctx : PermissionContext) : Bool :=
  if ctx.user.role = "super-admin" || permIncludes ctx.user "*" then
    true
  else if ctx.user.role ≠ "admin" then
    false
  else
    match ctx.user.permissions with
    | some ps =>
      ps.contains (ctx.resource ++ ":" ++ ctx.action) ||
        ps.contains (ctx.resource ++ ":*")
    | none => true

/-- Entry `DEFAULT_ADMIN_PERMISSIONS['moderator']` from permissions.ts. -/
def defaultModeratorPermissions : List String :=
  ["user:read", "user:update", "product:read", "product:update",
   "review:*", "admin:access"]

/-- Entry `DEFAULT_ADMIN_PERMISSIONS['editor']` from permissions.ts. -/
def defaultEditorPermissions : List String :=
  ["product:*", "category:*", "admin:access"]

/-! ## Admin bulk operations
(`performBulkOperation`, src/unnamed/part_002) -/

/-- A persisted record, abstractly: key/value pairs. -/
def Rec : Type := List (String × String)

instance : DecidableEq Rec := inferInstanceAs (DecidableEq (List (String × String)))

/-- The `operation` field of a bulk request body. -/
inductive BulkOp where
  | delete
  | update
  | other (name : String)
deriving DecidableEq, Repr

/-- One entry of the results array of `performBulkOperation`:
`{id, success: true, result}` or `{id, success: false, error}`. -/
structure BulkEntry where
  id : String
  success : Bool
  result : Option Rec := none
  error : Option String := none
deriving DecidableEq

/-- The single-id body of the `for (const id of ids)` loop of
`performBulkOperation`: dispatch on the operation (`delete`/`update` call
the adapter, anything else throws `Unsupported operation`), and the
`try`/`catch` turns the outcome into a per-id result entry. The adapter
calls are modelled as fallible functions of the id (the shared `data` of
an update is folded into `adapterUpdate`). -/
def bulkStep (adapterDelete adapterUpdate : String → Except String Rec)
    (op : BulkOp) (id : String) : BulkEntry :=
  match
    (match op with
     | .delete => adapterDelete id
     | .update => adapterUpdate id
     | .other name => .error ("Unsupported operation: " ++ name)) with
  | .ok r => { id := id, success := true, result := some r }
  | .error e => { id := id, success := false, error := some e }

/-- Function `performBulkOperation` from the admin plugin: iterate the ids in
order, pushing one result entry per id; a failure is caught per id and
the loop continues with the next id. -/
def performBulkOperation (adapterDelete adapterUpdate : String → Except String Rec)
    (op : BulkOp) : List String → List BulkEntry
  | [] => []
  | id :: rest =>
    bulkStep adapterDelete adapterUpdate op id ::
      performBulkOperation adapterDelete adapterUpdate op rest

/-! ## Hook pipeline executor -/

/-- A payload value: the engine's payloads carry strings, parsed date
values, numbers and booleans. `new Date(s)` applied to a string `s` is
modelled as `.date s`. -/
inductive Value where
  | str (s : String)
  | date (iso : String)
  | num (n : Int)
  | bool (b : Bool)
deriving DecidableEq, Repr

/-- Error kinds of the pipeline (§7 of the spec). -/
inductive QueryError where
  | schemaValidation (msg : String)
  | authorization (msg : String)
  | hookExecution (msg : String)
  | persistenceConstraint (msg : String)
deriving DecidableEq, Repr

/-- The request context observed by hooks: the mutable payload
(`context.data` in the source test). -/
structure HookContext where
  data : List (String × Value)
deriving DecidableEq, Repr

/-- A hook: observes the context and either returns the (possibly
mutated) context or raises. -/
def Hook : Type := HookContext → Except QueryError HookContext

/-- Run a list of hooks strictly sequentially: each hook receives the
context produced by the previous one; a raising hook aborts the rest of
the stage. -/
def runHooks : List Hook → HookContext → Except QueryError HookContext
  | [], c => .ok c
  | h :: t, c =>
    match h c with
    | .error e => .error e
    | .ok c2 => runHooks t c2

namespace HookExecutor

/-- Modelled from the spec: `HookExecutor.executeBefore` (the
implementation under `src/utils/hooks` is absent from the snapshot; only
its test suite in CLIENT-FEATURES.md is present). For a stage's
before-hooks, all resource-defined hooks run, in order, before any
plugin-defined hooks: the executed sequence is resource hooks followed by
plugin hooks. -/
def executeBefore (resourceHooks pluginHooks : List Hook)
    (ctx : HookContext) : Except QueryError HookContext :=
  runHooks (resourceHooks ++ pluginHooks) ctx

end HookExecutor

/-- Look a key up in a payload. -/
def getField (data : List (String × Value)) (k : String) : Option Value :=
  match data.find? (fun p => p.1 = k) with
  | some p => some p.2
  | none => none

/-- The resource-defined `beforeCreate` hook of the dueDate scenario: if
the named field holds a string, replace it by the parsed date value
(`context.data.dueDate = new Date(context.data.dueDate)`). -/
def coerceDateHook (field : String) : Hook := fun ctx =>
  .ok { data :=
    ctx.data.map fun p =>
      if p.1 = field then
        (p.1, match p.2 with
              | .str s => .date s
              | v => v)
      else p }

/-- The plugin schema validator of the dueDate scenario: the named field,
when present, must already be a date value; a string fails with a
schema-validation error (`dueDate: Expected date, received string`). -/
def dateValidatorHook (field : String) : Hook := fun ctx =>
  match getField ctx.data field with
  | some (.str _) =>
    .error (.schemaValidation (field ++ ": Expected date, received string"))
  | _ => .ok ctx

/-! ## Ownership/scope evaluator and resource request pipeline -/

/-- An operation of the pipeline. -/
inductive Operation where
  | create
  | read
  | update
  | delete
  | list
deriving DecidableEq, Repr

/-- An authenticated actor: identity plus capability set. -/
structure Actor where
  identity : String
  capabilities : List String
deriving DecidableEq, Repr

/-- The capability set of a possibly-anonymous request: an anonymous
request holds no capabilities. -/
def capsOf : Option Actor → List String
  | some a => a.capabilities
  | none => []

/-- Modelled from the spec: the scope check of the ownership/scope
evaluator (§4.2; the core evaluator is absent from the snapshot, only
example resource configurations under `examples/` use it). The actor's
capability set must be a superset of the operation's required capability
set; an anonymous request holds no capabilities, so it fails exactly the
operations whose required set is non-empty. -/
def scopeCheck (ma : Option Actor) (required : List String) : Bool :=
  required.all fun c => (capsOf ma).contains c

/-- Ownership strategy (§3): `strict` or `flexible`. -/
inductive Strategy where
  | strict
  | flexible
deriving DecidableEq, Repr

/-- Ownership policy (§3): the owner-identifying field plus a strategy. -/
structure OwnershipPolicy where
  field : String
  strategy : Strategy
deriving DecidableEq, Repr

/-- The administrative capability token granting flexible-ownership
override. -/
def adminCapability : String := "admin"

/-- Modelled from the spec: the owner value
`existingRecord[ownershipPolicy.field]` read by the ownership check of
the evaluator (§4.2). -/
def ownerOf (pol : OwnershipPolicy) (existingRecord : Rec) : Option String :=
  (existingRecord.find? (fun p => p.1 = pol.field)).map Prod.snd

/-- Modelled from the spec: the ownership decision of the evaluator,
comparing the owner value read by `ownerOf` with the actor's identity;
under `flexible` the administrative capability also suffices. -/
def ownershipCheck (a : Actor) (pol : OwnershipPolicy)
    (existingRecord : Rec) : Bool :=
  match pol.strategy with
  | .strict => ownerOf pol existingRecord = some a.identity
  | .flexible =>
    ownerOf pol existingRecord = some a.identity ||
      a.capabilities.contains adminCapability

/-- A field descriptor as the pipeline's schema validation sees it. -/
structure FieldDescr where
  type : PrimitiveType
  required : Bool := false
deriving DecidableEq, Repr

/-- A registered resource: name, ordered field map, scope policy
(operation → required capability set, absent = deny by default),
optional ownership policy, and before/after hooks per stage. -/
structure Resource where
  name : String
  fields : List (String × FieldDescr)
  scopes : Operation → Option (List String)
  ownership : Option OwnershipPolicy := none
  hooksBefore : Operation → List Hook := fun _ => []
  hooksAfter : Operation → List Hook := fun _ => []

/-- Result of the evaluator: allow, or deny with a reason. -/
inductive AuthResult where
  | allow
  | deny (reason : String)
deriving DecidableEq, Repr

/-- Modelled from the spec: `authorize(actor, operation, resource,
existingRecord?) → allow | deny(reason)` (§4.2). The scope check runs
first (an absent required set denies by default); the ownership check
runs only for update/delete and only when an ownership policy is
declared. -/
def authorize (ma : Option Actor) (op : Operation) (res : Resource)
    (existingRecord : Option Rec) : AuthResult :=
  match res.scopes op with
  | none => .deny "no scope declared for operation"
  | some required =>
    if !scopeCheck ma required then .deny "missing required capability"
    else
      match op, res.ownership, ma, existingRecord with
      | .update, some pol, some a, some r =>
        if ownershipCheck a pol r then .allow else .deny "not the owner"
      | .delete, some pol, some a, some r =>
        if ownershipCheck a pol r then .allow else .deny "not the owner"
      | .update, some _, none, _ => .deny "not the owner"
      | .delete, some _, none, _ => .deny "not the owner"
      | _, _, _, _ => .allow

/-- Schema validation of the pipeline (§4.4): unknown payload fields are
rejected for create/update, required fields must be present for create. -/
def schemaValidate (fields : List (String × FieldDescr))
    (payload : List (String × Value)) (op : Operation) : Bool :=
  match op with
  | .create =>
    payload.all (fun p => fields.any (fun f => f.1 = p.1)) &&
      fields.all (fun f => !f.2.required || payload.any (fun p => p.1 = f.1))
  | .update => payload.all (fun p => fields.any (fun f => f.1 = p.1))
  | _ => true

/-- Observable side effects of one pipeline run: a before-hook
invocation, a storage-adapter (persistence) call, an after-hook
invocation. -/
inductive Effect where
  | hookBefore
  | persistCall
  | hookAfter
deriving DecidableEq, Repr

/-- Final state of one pipeline run. -/
inductive OpOutcome where
  | completed (result : List (String × Value))
  | failed (e : QueryError)
deriving DecidableEq, Repr

/-- Run a stage's hooks recording one effect per hook actually invoked
(a raising hook was invoked; the hooks after it were not). -/
def runHooksTraced (eff : Effect) :
    List Hook → HookContext → Except QueryError HookContext × List Effect
  | [], c => (.ok c, [])
  | h :: t, c =>
    match h c with
    | .error e => (.error e, [eff])
    | .ok c2 =>
      let (r, es) := runHooksTraced eff t c2
      (r, eff :: es)

/-- Modelled from the spec: the resource request pipeline (§4.4), with
its observable effects traced. `Received → SchemaValidated → Authorized →
HooksBefore → Persisted → HooksAfter → Completed`; a schema-validation
failure or an authorization deny moves straight to `Failed` before any
hook or persistence effect; a raising before-hook aborts before the
persistence call; after-hook errors are reported but leave the operation
`Completed`. The storage adapter is the external collaborator `persist`.
Plugin before/after hooks run after the resource's own, per §4.3. -/
def runPipeline (res : Resource)
    (pluginBefore pluginAfter : Operation → List Hook)
    (persist : Operation → List (String × Value) →
      Except String (List (String × Value)))
    (ma : Option Actor) (op : Operation) (payload : List (String × Value))
    (existingRecord : Option Rec) : OpOutcome × List Effect :=
  if !schemaValidate res.fields payload op then
    (.failed (.schemaValidation "payload shape mismatch"), [])
  else
    match authorize ma op res existingRecord with
    | .deny reason => (.failed (.authorization reason), [])
    | .allow =>
      let (br, bes) :=
        runHooksTraced .hookBefore
          (res.hooksBefore op ++ pluginBefore op) { data := payload }
      match br with
      | .error e => (.failed e, bes)
      | .ok ctx2 =>
        match persist op ctx2.data with
        | .error msg =>
          (.failed (.persistenceConstraint msg), bes ++ [.persistCall])
        | .ok result =>
          let (_, aes) :=
            runHooksTraced .hookAfter
              (res.hooksAfter op ++ pluginAfter op) { data := result }
          (.completed result, bes ++ [.persistCall] ++ aes)

/-! ## Concrete scenarios from the source tests and examples -/

/-- Fields of the reserved-words test: resource `order` with columns
`id`, `group` (reserved) and `email` (not reserved). -/
def orderFields : List (String × FieldAttribute) :=
  [("id", { type := .string }),
   ("group", { type := .string }),
   ("email", { type := .string })]

/-- Fields of the foreign-key test: `order_item` with `orderId`
referencing `order.id`. -/
def orderItemFields : List (String × FieldAttribute) :=
  [("id", { type := .string }),
   ("orderId", { type := .string,
                 references := some { model := "order", field := "id" } })]

/-- The request context of the hook-ordering test: a todo payload whose
`dueDate` arrives as a string. -/
def todoContext : HookContext :=
  { data := [("title", .str "Test Todo"), ("dueDate", .str "2024-01-15")] }

/-- A delete adapter that fails on id `a` and succeeds elsewhere. -/
def failingOnA : String → Except String Rec := fun id =>
  if id = "a" then .error "boom" else .ok [("id", id)]

/-- An update adapter that always succeeds. -/
def alwaysOk : String → Except String Rec := fun id => .ok [("id", id)]

/-- The professional resource of the hitady example, reduced to the
pipeline's inputs: a scope policy requiring `professional:write` for
create. -/
def demoResource : Resource :=
  { name := "professional"
    fields := [("id", { type := .string }),
               ("title", { type := .string, required := true })]
    scopes := fun _ => some ["professional:write"]
    ownership := some { field := "userId", strategy := .strict } }

/-! ## Theorems -/

/-- Sequential hook execution distributes over list append: the second
block of hooks runs on the context produced by the whole first block, and
an error in the first block short-circuits the second. -/
theorem runHooks_append (l1 l2 : List Hook) (c : HookContext) :
    runHooks (l1 ++ l2) c = Except.bind (runHooks l1 c) (runHooks l2) := by
  induction l1 generalizing c with
  | nil => rfl
  | cons h t ih =>
    simp only [List.cons_append, runHooks]
    cases h c with
    | error e => rfl
    | ok c2 => exact ih c2

/-- C1: for every lifecycle stage, the hook pipeline runs all
resource-defined hooks strictly before any plugin-defined hook observes
the context (`executeBefore` factors as the resource block bound into the
plugin block); concretely, a resource `beforeCreate` hook converting the
string-valued `dueDate` into a date value runs before the plugin schema
validator, so the pipeline succeeds on the todo payload, whereas running
the plugin validator before the resource hook fails with a
schema-validation error. -/
theorem hookPipeline_resource_hooks_run_before_plugin_hooks :
    (∀ (resourceHooks pluginHooks : List Hook) (ctx : HookContext),
      HookExecutor.executeBefore resourceHooks pluginHooks ctx =
        Except.bind (runHooks resourceHooks ctx) (runHooks pluginHooks)) ∧
    HookExecutor.executeBefore [coerceDateHook "dueDate"]
        [dateValidatorHook "dueDate"] todoContext =
      .ok { data := [("title", .str "Test Todo"),
                     ("dueDate", .date "2024-01-15")] } ∧
    runHooks [dateValidatorHook "dueDate", coerceDateHook "dueDate"]
        todoContext =
      .error (.schemaValidation "dueDate: Expected date, received string") :=
  ⟨fun rh ph ctx => runHooks_append rh ph ctx, rfl, rfl⟩

/-- C2: an identifier is wrapped in double quotes exactly when it is in
the dialect's reserved-word set, and each column decides its own
identifier independently (a column definition begins with the quoted or
unquoted column name, whatever the rest of the statement holds); on the
SQLite `order`/`group`/`email` example the DDL quotes `order` and
`group` and leaves `email` unquoted. -/
theorem generateCreateTableSQL_quotes_reserved_identifiers :
    (∀ (d : Dialect) (s : String), s ∈ reservedWords d →
      quoteIdent d s = "\"" ++ s ++ "\"") ∧
    (∀ (d : Dialect) (s : String), s ∉ reservedWords d →
      quoteIdent d s = s) ∧
    (∀ (d : Dialect) (name : String) (f : FieldAttribute),
      ∃ rest, columnDef d name f = quoteIdent d name ++ rest) ∧
    occursIn "CREATE TABLE IF NOT EXISTS \"order\""
      (generateCreateTableSQL "order" orderFields .sqlite) ∧
    occursIn "\"group\" TEXT"
      (generateCreateTableSQL "order" orderFields .sqlite) ∧
    occursIn "email TEXT"
      (generateCreateTableSQL "order" orderFields .sqlite) ∧
    ¬ occursIn "\"email\""
      (generateCreateTableSQL "order" orderFields .sqlite) := by
  refine ⟨?_, ?_, ?_, by decide, by decide, by decide, by decide⟩
  · intro d s h
    simp [quoteIdent, h]
  · intro d s h
    simp [quoteIdent, h]
  · intro d name f
    exact ⟨_, rfl⟩

/-- Witness for C2: `group` is reserved in SQLite and is quoted, `email`
is not reserved and is left unquoted. -/
theorem generateCreateTableSQL_quotes_reserved_identifiers_witness :
    quoteIdent .sqlite "group" = "\"group\"" ∧
    quoteIdent .sqlite "email" = "email" :=
  ⟨generateCreateTableSQL_quotes_reserved_identifiers.1 .sqlite "group"
      (by decide),
   generateCreateTableSQL_quotes_reserved_identifiers.2.1 .sqlite "email"
      (by decide)⟩

/-- C4: `generateCreateTableSQL` is a pure deterministic function — two
invocations on identical inputs produce identical DDL text. -/
theorem generateCreateTableSQL_deterministic :
    ∀ (resourceName : String) (fields : List (String × FieldAttribute))
      (d : Dialect),
      generateCreateTableSQL resourceName fields d =
        generateCreateTableSQL resourceName fields d :=
  fun _ _ _ => rfl

/-- C8: for every resource name, field map and dialect, the generated
DDL starts with `CREATE TABLE IF NOT EXISTS `, so the statement carries
`IF NOT EXISTS` semantics. -/
theorem generateCreateTableSQL_if_not_exists :
    ∀ (resourceName : String) (fields : List (String × FieldAttribute))
      (d : Dialect),
      (∃ rest, generateCreateTableSQL resourceName fields d =
        "CREATE TABLE IF NOT EXISTS " ++ rest) ∧
      occursIn "IF NOT EXISTS"
        (generateCreateTableSQL resourceName fields d) := by
  intro resourceName fields d
  refine ⟨⟨_, rfl⟩, ?_⟩
  have h1 : ("IF NOT EXISTS" : String).data <:+:
      ("CREATE TABLE IF NOT EXISTS " : String).data := by decide
  refine h1.trans ⟨[], (quoteIdent d resourceName ++ " (" ++
    String.intercalate ", "
      (fields.map (fun p => columnDef d p.1 p.2) ++ fkClauses d fields) ++
    ")").data, ?_⟩
  simp [generateCreateTableSQL, String.data_append]

/-- C3: every foreign-key clause ends with a `REFERENCES` segment whose
target table and target column each go through the dialect's
reserved-word check, and the clause is independent of the referencing
table's own name: whatever the `order_item` table is actually called,
the generated DDL contains `REFERENCES "order"(id)`. -/
theorem generateCreateTableSQL_foreign_key_target_quoting :
    (∀ (d : Dialect) (name : String) (r : FKReference),
      ∃ pre, fkClause d name r =
        pre ++ ("REFERENCES " ++ (quoteIdent d r.model ++
          ("(" ++ (quoteIdent d r.field ++ ")"))))) ∧
    (∀ tableName : String,
      occursIn "REFERENCES \"order\"(id)"
        (generateCreateTableSQL tableName orderItemFields .sqlite)) := by
  constructor
  · intro d name r
    exact ⟨"FOREIGN KEY (" ++ quoteIdent d name ++ ") ", rfl⟩
  · intro tableName
    have h1 : ("REFERENCES \"order\"(id)" : String).data <:+:
        (String.intercalate ", "
          (orderItemFields.map (fun p => columnDef .sqlite p.1 p.2) ++
            fkClauses .sqlite orderItemFields)).data := by decide
    refine h1.trans ?_
    refine ⟨("CREATE TABLE IF NOT EXISTS " : String).data ++
      (quoteIdent .sqlite tableName).data ++ (" (" : String).data,
      (")" : String).data, ?_⟩
    simp [generateCreateTableSQL, String.data_append]

/-- C5: once the ownership/scope evaluator denies an operation that
passed schema validation, the pipeline runs no before-hook, no
after-hook and makes no persistence call — the observable effect trace
is empty — and the operation fails with an authorization error. -/
theorem runPipeline_deny_skips_hooks_and_persistence :
    ∀ (res : Resource) (pluginBefore pluginAfter : Operation → List Hook)
      (persist : Operation → List (String × Value) →
        Except String (List (String × Value)))
      (ma : Option Actor) (op : Operation)
      (payload : List (String × Value)) (existingRecord : Option Rec)
      (reason : String),
      schemaValidate res.fields payload op = true →
      authorize ma op res existingRecord = .deny reason →
      runPipeline res pluginBefore pluginAfter persist ma op payload
          existingRecord =
        (.failed (.authorization reason), []) := by
  intro res pb pa persist ma op payload existingRecord reason hv ha
  simp [runPipeline, hv, ha]

/-- Witness for C5: an anonymous create on the professional resource is
denied by the scope check and produces an empty effect trace. -/
theorem runPipeline_deny_skips_hooks_and_persistence_witness :
    runPipeline demoResource (fun _ => []) (fun _ => [])
        (fun _ d => .ok d) none .create [("title", .str "Plumber")] none =
      (.failed (.authorization "missing required capability"), []) :=
  runPipeline_deny_skips_hooks_and_persistence demoResource _ _ _ none
    .create [("title", .str "Plumber")] none
    "missing required capability" (by decide) rfl

/-- C6: the scope check passes exactly when the capability set of the
(possibly anonymous) request is a superset of the operation's required
capability set; in particular an anonymous request is denied for every
operation whose required set is non-empty. -/
theorem scopeCheck_superset_and_anonymous_denied :
    (∀ (ma : Option Actor) (required : List String),
      scopeCheck ma required = true ↔ ∀ c ∈ required, c ∈ capsOf ma) ∧
    (∀ required : List String, required ≠ [] →
      scopeCheck none required = false) := by
  constructor
  · intro ma required
    simp [scopeCheck, List.all_eq_true]
  · intro required h
    match required with
    | [] => exact absurd rfl h
    | c :: t => simp [scopeCheck, capsOf]

/-- Witness for C6: an anonymous request fails the non-empty scope of
the professional resource. -/
theorem scopeCheck_superset_and_anonymous_denied_witness :
    scopeCheck none ["professional:write"] = false :=
  scopeCheck_superset_and_anonymous_denied.2 ["professional:write"]
    (by decide)

/-- C7: under the `strict` strategy a non-owner actor is denied whatever
its capabilities; under the `flexible` strategy the same non-owner actor
is allowed exactly when it holds the administrative capability. -/
theorem ownershipCheck_strict_and_flexible :
    (∀ (a : Actor) (pol : OwnershipPolicy) (existingRecord : Rec),
      pol.strategy = .strict →
      ownerOf pol existingRecord ≠ some a.identity →
      ownershipCheck a pol existingRecord = false) ∧
    (∀ (a : Actor) (pol : OwnershipPolicy) (existingRecord : Rec),
      pol.strategy = .flexible →
      ownerOf pol existingRecord ≠ some a.identity →
      (ownershipCheck a pol existingRecord = true ↔
        adminCapability ∈ a.capabilities)) := by
  constructor
  · intro a pol existingRecord hs ho
    simp [ownershipCheck, hs, ho]
  · intro a pol existingRecord hs ho
    simp [ownershipCheck, hs, ho]

/-- Witness for C7: alice is not the owner of bob's record; with the
administrative capability she is denied under `strict` and allowed under
`flexible`. -/
theorem ownershipCheck_strict_and_flexible_witness :
    ownershipCheck ⟨"alice", ["admin"]⟩ ⟨"userId", .strict⟩
        [("userId", "bob")] = false ∧
    ownershipCheck ⟨"alice", ["admin"]⟩ ⟨"userId", .flexible⟩
        [("userId", "bob")] = true :=
  ⟨ownershipCheck_strict_and_flexible.1 ⟨"alice", ["admin"]⟩
      ⟨"userId", .strict⟩ [("userId", "bob")] rfl (by decide),
   (ownershipCheck_strict_and_flexible.2 ⟨"alice", ["admin"]⟩
      ⟨"userId", .flexible⟩ [("userId", "bob")] rfl (by decide)).mpr
      (by decide)⟩

/-- A permission context whose user's role is neither `admin` nor
`super-admin` and whose permission list holds no `*` token is always
refused by `validateAdminPermissions`, whatever tokens the list holds. -/
theorem validateAdminPermissions_false_of_role (ctx : PermissionContext)
    (h1 : ctx.user.role ≠ "admin") (h2 : ctx.user.role ≠ "super-admin")
    (h3 : permIncludes ctx.user "*" = false) :
    validateAdminPermissions ctx = false := by
  simp [validateAdminPermissions, h1, h2, h3]

/-- C9: `validateAdminPermissions` returns false for every context whose
user role is neither `admin` nor `super-admin` and whose permission list
lacks `*`, even when the list holds the exact `resource:action` token;
consequently the default `moderator` and `editor` permission entries can
never be accepted, for any resource and action. -/
theorem validateAdminPermissions_rejects_non_admin_roles :
    (∀ ctx : PermissionContext, ctx.user.role ≠ "admin" →
      ctx.user.role ≠ "super-admin" → permIncludes ctx.user "*" = false →
      validateAdminPermissions ctx = false) ∧
    (∀ i resource action : String,
      validateAdminPermissions
        ⟨⟨i, "moderator", some defaultModeratorPermissions⟩,
          resource, action⟩ = false) ∧
    (∀ i resource action : String,
      validateAdminPermissions
        ⟨⟨i, "editor", some defaultEditorPermissions⟩,
          resource, action⟩ = false) := by
  refine ⟨validateAdminPermissions_false_of_role, ?_, ?_⟩
  · intro i resource action
    have h1 : ("moderator" : String) ≠ "admin" := by decide
    have h2 : ("moderator" : String) ≠ "super-admin" := by decide
    have h3 : defaultModeratorPermissions.contains "*" = false := by decide
    exact validateAdminPermissions_false_of_role _ h1 h2 h3
  · intro i resource action
    have h1 : ("editor" : String) ≠ "admin" := by decide
    have h2 : ("editor" : String) ≠ "super-admin" := by decide
    have h3 : defaultEditorPermissions.contains "*" = false := by decide
    exact validateAdminPermissions_false_of_role _ h1 h2 h3

/-- Witness for C9: a moderator holding the exact `user:read` token is
still refused `user:read`. -/
theorem validateAdminPermissions_rejects_non_admin_roles_witness :
    validateAdminPermissions
      ⟨⟨"u1", "moderator", some defaultModeratorPermissions⟩,
        "user", "read"⟩ = false :=
  validateAdminPermissions_rejects_non_admin_roles.1
    ⟨⟨"u1", "moderator", some defaultModeratorPermissions⟩, "user", "read"⟩
    (by decide) (by decide) (by decide)

/-- Bulk operations process each id by itself: the result list is the
map of the single-id step over the ids. -/
theorem performBulkOperation_eq_map
    (adapterDelete adapterUpdate : String → Except String Rec)
    (op : BulkOp) (ids : List String) :
    performBulkOperation adapterDelete adapterUpdate op ids =
      ids.map (bulkStep adapterDelete adapterUpdate op) := by
  induction ids with
  | nil => rfl
  | cons id rest ih => simp [performBulkOperation, ih]

/-- C10: admin bulk operations are not atomic: every id is attempted in
list order independently of the others (the result list is the per-id
map, with exactly one entry per input id), and a per-id failure is
captured as an unsuccessful entry without aborting the rest — on ids
`a`,`b`,`c` with `a` failing, `b` and `c` still succeed. -/
theorem performBulkOperation_per_id_independent :
    (∀ (adapterDelete adapterUpdate : String → Except String Rec)
      (op : BulkOp) (ids : List String),
      performBulkOperation adapterDelete adapterUpdate op ids =
        ids.map (bulkStep adapterDelete adapterUpdate op)) ∧
    (∀ (adapterDelete adapterUpdate : String → Except String Rec)
      (op : BulkOp) (ids : List String),
      (performBulkOperation adapterDelete adapterUpdate op ids).length =
        ids.length) ∧
    performBulkOperation failingOnA alwaysOk .delete ["a", "b", "c"] =
      [{ id := "a", success := false, error := some "boom" },
       { id := "b", success := true, result := some [("id", "b")] },
       { id := "c", success := true, result := some [("id", "c")] }] := by
  refine ⟨performBulkOperation_eq_map, ?_, rfl⟩
  intro adapterDelete adapterUpdate op ids
  simp [performBulkOperation_eq_map]

end BetterKit
